import Mathlib

/-!
Shallow embedding of `src/subliminal/providers/bierdopje.py`.

Network effects are made explicit: the remote service's behaviour is a
parameter (`Service`), HTTP outcomes are values (`HttpOutcome`,
`RawOutcome`), and every function that issues requests also returns the
list of requests it made, so that "no network call is made" is a
provable statement.  Exceptions become an `Err` sum type returned in
`Except`.  XML responses are modelled as already-parsed documents
(`Doc`): the code hands `requests` responses to
`xml.etree.ElementTree.fromstring` and then navigates fixed paths, so a
well-formed response is a record with an optional `response/error_msg`
node, a `response/status` text and a list of `response/results`
children.  Navigating a missing node in Python raises `AttributeError`;
that is kept as an explicit `Err.attributeError` outcome.  External
collaborators that live outside this file's source (`guessit` plus
`compute_guess_matches`, `charade.detect`, `is_valid_subtitle`, the
cache region) are opaque parameters; the cache decorator on
`find_show_id` is dropped (no claim here concerns caching), so
`find_show_id` models one uncached resolution attempt.
-/

namespace BierDopje

/-- Exceptions raised by the provider code, as one sum type:
`ProviderNotAvailable`, `ProviderError`, `InvalidSubtitle`,
`ValueError`, plus Python's `AttributeError` (navigating a missing XML
node) and `UnicodeDecodeError` (a decode failure). -/
inductive Err where
  | providerNotAvailable (msg : String)
  | providerError (msg : String)
  | invalidSubtitle
  | valueError (msg : String)
  | attributeError
  | unicodeDecodeError
deriving DecidableEq, Repr

/-- Languages of the provider: `{babelfish.Language(l) for l in ['eng', 'nld']}`. -/
inductive Language where
  | eng
  | nld
deriving DecidableEq, Repr

/-- ISO-639-1 code used in request URLs (`language.alpha2`). -/
def Language.alpha2 : Language → String
  | .eng => "en"
  | .nld => "nl"

/-- One `result` entry of a `FindShowByName` response: a `showname`
text and a `showid` text (already converted by `int(...)`). -/
structure ShowResult where
  showname : String
  showid : Int
deriving DecidableEq, Repr

/-- One `result` entry of a `GetAllSubsFor` response: a `filename`
text and a `downloadlink` text. -/
structure SubEntry where
  filename : String
  downloadlink : String
deriving DecidableEq, Repr

/-- A parsed XML document: the optional `response/error_msg` node's
text, the `response/status` text, and the `response/results` entries. -/
structure Doc (α : Type) where
  error_msg : Option String
  status : String
  results : List α
deriving DecidableEq, Repr

/-- Outcome of one `session.get` on an API URL: either
`requests.Timeout`, or a response with a status code and a parsed body. -/
inductive HttpOutcome (α : Type) where
  | timeout
  | response (status : Nat) (doc : Doc α)
deriving DecidableEq, Repr

/-- Embedding of `BierDopjeProvider.get`: classify the HTTP outcome.
Timeout raises `ProviderNotAvailable('Timeout after 10 seconds')`;
status 429 raises `ProviderNotAvailable('Too Many Requests')`; any
other non-200 status raises `ProviderError` with the status code; a
200 body whose `response/error_msg` node is present raises
`ProviderError` with that node's text; otherwise the parsed document
is returned. -/
def get {α : Type} (o : HttpOutcome α) : Except Err (Doc α) :=
  match o with
  | .timeout => .error (.providerNotAvailable "Timeout after 10 seconds")
  | .response status doc =>
    if status == 429 then
      .error (.providerNotAvailable "Too Many Requests")
    else if status != 200 then
      .error (.providerError ("Request failed with status code " ++ toString status))
    else
      match doc.error_msg with
      | some msg => .error (.providerError msg)
      | none => .ok doc

instance {ε α : Type} [DecidableEq ε] [DecidableEq α] : DecidableEq (Except ε α) := fun x y =>
  match x, y with
  | .error a, .error b =>
    if h : a = b then .isTrue (by rw [h]) else
      .isFalse (fun hh => h (by injection hh))
  | .ok a, .ok b =>
    if h : a = b then .isTrue (by rw [h]) else
      .isFalse (fun hh => h (by injection hh))
  | .error _, .ok _ => .isFalse (fun hh => Except.noConfusion hh)
  | .ok _, .error _ => .isFalse (fun hh => Except.noConfusion hh)

/-- Python `str.lower()` (kernel-reducible form of `String.toLower`:
lowercase every character). -/
def pyLower (s : String) : String := String.mk (s.data.map Char.toLower)

/-- Requests the provider can issue against the remote API. -/
inductive Request where
  | findShowByName (series : String)
  | getAllSubsFor (showid : Int) (season : Option Nat) (episode : Option Nat)
      (language : String) (istvdbid : Bool)
deriving DecidableEq, Repr

/-- Behaviour of the remote service: what each request's `session.get`
returns.  `findShow` answers `FindShowByName/{series}` and
`getAllSubs` answers `GetAllSubsFor/{showid}/{season}/{episode}/{language}/{istvdbid}`. -/
structure Service where
  findShow : String → HttpOutcome ShowResult
  getAllSubs : Int → Option Nat → Option Nat → String → Bool → HttpOutcome SubEntry

/-- Embedding of `BierDopjeProvider.find_show_id` (without the cache
decorator): fetch `FindShowByName/{series}`, return `none` when the
response status text is `'false'`; otherwise, when a year is given,
return the first result whose lowercased `showname` equals
`'<series> (<year>)'`; failing that return the first result whose
lowercased `showname` equals the series; failing that return the first
result's `showid` (the XPath `result[1]` is 1-indexed, hence the
head).  An empty results list makes that last XPath lookup return
`None` and `.text` raise `AttributeError`.  Also returns the list of
requests issued.  `resolveFromDoc` is the body of `find_show_id` after
the `get`, on the fetched document. -/
def resolveFromDoc (series : String) (year : Option Nat) (root : Doc ShowResult) :
    Except Err (Option Int) :=
  if root.status == "false" then
    .ok none
  else
    match
      (match year with
      | some y =>
        root.results.find? (fun r =>
          pyLower r.showname == series ++ " (" ++ toString y ++ ")")
      | none => none : Option ShowResult)
    with
    | some r => .ok (some r.showid)
    | none =>
      match root.results.find? (fun r => pyLower r.showname == series) with
      | some r => .ok (some r.showid)
      | none =>
        match root.results.head? with
        | some r => .ok (some r.showid)
        | none => .error .attributeError

def find_show_id (svc : Service) (series : String) (year : Option Nat) :
    Except Err (Option Int) × List Request :=
  (match get (svc.findShow series) with
    | .error e => .error e
    | .ok root => resolveFromDoc series year root,
   [Request.findShowByName series])

/-- Embedding of `BierDopjeSubtitle`: the constructor stores the
language, season, episode, tvdb_id, series, year, filename and
download link; `content` is the attribute the base `Subtitle` leaves
unset until `download_subtitle` assigns it.  Season and episode are
`Option Nat` because the video's fields may be `None` in Python. -/
structure BierDopjeSubtitle where
  language : Language
  season : Option Nat
  episode : Option Nat
  tvdb_id : Option Int
  series : Option String
  year : Option Nat
  filename : String
  download_link : String
  content : Option String := none
deriving DecidableEq, Repr

/-- Helper for `query`: issue `GetAllSubsFor` with the chosen show id
and flag, and parse the results, stamping each subtitle with the
request's arguments and reading only `filename` and `downloadlink`
from each response entry. -/
def getAllSubsStep (svc : Service) (language : Language) (season episode : Option Nat)
    (tvdb_id : Option Int) (series : Option String) (year : Option Nat)
    (showid : Int) (istvdbid : Bool) (trace : List Request) :
    Except Err (List BierDopjeSubtitle) × List Request :=
  let req := Request.getAllSubsFor showid season episode language.alpha2 istvdbid
  let res : Except Err (List BierDopjeSubtitle) :=
    match get (svc.getAllSubs showid season episode language.alpha2 istvdbid) with
    | .error e => .error e
    | .ok root =>
      if root.status == "false" then
        .ok []
      else
        .ok (root.results.map (fun r =>
          { language := language, season := season, episode := episode,
            tvdb_id := tvdb_id, series := series, year := year,
            filename := r.filename, download_link := r.downloadlink,
            content := none }))
  (res, trace ++ [req])

/-- Embedding of `BierDopjeProvider.query`: when `tvdb_id` is present
it is used directly as the show id with `istvdbid = 'true'`; otherwise
when `series` is present the resolver is consulted on the lowercased
series (absent resolution short-circuits to `[]`); otherwise
`ValueError` is raised before any network call.  Also returns the list
of requests issued. -/
def query (svc : Service) (language : Language) (season episode : Option Nat)
    (tvdb_id : Option Int) (series : Option String) (year : Option Nat) :
    Except Err (List BierDopjeSubtitle) × List Request :=
  match tvdb_id with
  | some tid =>
    getAllSubsStep svc language season episode tvdb_id series year tid true []
  | none =>
    match series with
    | some ser =>
      match find_show_id svc (pyLower ser) year with
      | (.error e, t) => (.error e, t)
      | (.ok none, t) => (.ok [], t)
      | (.ok (some sid), t) =>
        getAllSubsStep svc language season episode tvdb_id series year sid false t
    | none => (.error (.valueError "Missing parameter tvdb_id or series"), [])

/-- The caller-side `Video` abstraction: optional fields, as the host
framework supplies them. -/
structure Video where
  series : Option String
  season : Option Nat
  episode : Option Nat
  tvdb_id : Option Int
  year : Option Nat
deriving DecidableEq, Repr

/-- Embedding of `BierDopjeProvider.list_subtitles`: the list
comprehension runs `query` once per language, in order, concatenating
each language's results; an exception from any `query` propagates. -/
def list_subtitles (svc : Service) (video : Video) (languages : List Language) :
    Except Err (List BierDopjeSubtitle) × List Request :=
  match languages with
  | [] => (.ok [], [])
  | l :: ls =>
    match query svc l video.season video.episode video.tvdb_id video.series video.year with
    | (.error e, t) => (.error e, t)
    | (.ok subs, t) =>
      match list_subtitles svc video ls with
      | (.error e, t2) => (.error e, t ++ t2)
      | (.ok subsRest, t2) => (.ok (subs ++ subsRest), t ++ t2)

/-- Python truthiness of an optional integer field: `None` and `0` are
falsy (`if video.tvdb_id:` / `if video.season:`). -/
def truthyInt : Option Int → Bool
  | none => false
  | some n => n != 0

/-- Python truthiness of an optional natural field. -/
def truthyNat : Option Nat → Bool
  | none => false
  | some n => n != 0

/-- Python truthiness of an optional string field: `None` and the
empty string are falsy. -/
def truthyStr : Option String → Bool
  | none => false
  | some s => s != ""

/-- The direct field comparisons of `BierDopjeSubtitle.compute_matches`:
`tvdb_id`, `series`, `season` and `episode` are added only when the
video's field is truthy AND equals the candidate's; `year` is added
whenever the two year fields are equal, with no truthiness guard. -/
def directMatches (sub : BierDopjeSubtitle) (video : Video) : Finset String :=
  let ms : Finset String := ∅
  let ms := if truthyInt video.tvdb_id && (sub.tvdb_id == video.tvdb_id) then
    insert "tvdb_id" ms else ms
  let ms := if truthyStr video.series && (sub.series == video.series) then
    insert "series" ms else ms
  let ms := if truthyNat video.season && (sub.season == video.season) then
    insert "season" ms else ms
  let ms := if truthyNat video.episode && (sub.episode == video.episode) then
    insert "episode" ms else ms
  let ms := if sub.year == video.year then insert "year" ms else ms
  ms

/-- Embedding of `BierDopjeSubtitle.compute_matches`: the direct field
comparisons, unioned with the tags found by
`compute_guess_matches(video, guessit.guess_episode_info(self.filename + '.mkv'))`.
That composite is an opaque collaborator (neither `guessit` nor
`compute_guess_matches` is part of this file's source), modelled as a
parameter from the candidate's filename and the video to a tag set. -/
def compute_matches (guess : String → Video → Finset String)
    (sub : BierDopjeSubtitle) (video : Video) : Finset String :=
  directMatches sub video ∪ guess sub.filename video

/-- A character encoding, modelled as a per-byte decode map; `none`
marks a byte the encoding cannot map.  (Real codecs consume multi-byte
sequences; one byte per unit is enough to model the error-handler
semantics at issue.) -/
structure Encoding where
  decodeByte : Nat → Option Char

/-- Python `bytes.decode` error handlers: `'strict'` raises on an
unmappable byte, `'replace'` substitutes U+FFFD. -/
inductive ErrorHandler where
  | strict
  | replace
deriving DecidableEq, Repr

/-- Model of Python `bytes.decode(encoding, handler)`: under
`'strict'` any unmappable byte raises `UnicodeDecodeError`; under
`'replace'` every unmappable byte is substituted with the replacement
character, so decoding always succeeds. -/
def pyDecode (enc : Encoding) (handler : ErrorHandler) (bs : List Nat) :
    Except Err String :=
  match handler with
  | .replace =>
    .ok (String.mk (bs.map (fun b => (enc.decodeByte b).getD (Char.ofNat 0xFFFD))))
  | .strict =>
    if bs.all (fun b => (enc.decodeByte b).isSome) then
      .ok (String.mk (bs.map (fun b => (enc.decodeByte b).getD (Char.ofNat 0xFFFD))))
    else
      .error .unicodeDecodeError

/-- The text produced by decoding with the `'replace'` handler. -/
def pyDecodeReplace (enc : Encoding) (bs : List Nat) : String :=
  String.mk (bs.map (fun b => (enc.decodeByte b).getD (Char.ofNat 0xFFFD)))

/-- Outcome of the raw `session.get(subtitle.download_link)`: timeout,
or a status code with the raw body bytes (no XML parsing here). -/
inductive RawOutcome where
  | timeout
  | response (status : Nat) (content : List Nat)
deriving DecidableEq, Repr

/-- Embedding of `BierDopjeProvider.download_subtitle`: fetch the
candidate's download link with the same timeout/429/status
classification as `get`, decode the body with the encoding proposed by
`charade.detect` and the `'replace'` handler, check the text with
`is_valid_subtitle` (raising `InvalidSubtitle` on rejection), and only
then assign `subtitle.content`.  `detect` and `isValid` are opaque
collaborators; `http` gives the outcome of fetching each URL.  Returns
the (possibly updated) subtitle and the raised exception, if any: on
every error path the subtitle is returned as it came in, because the
single mutation is the last statement. -/
def download_subtitle (detect : List Nat → Encoding) (isValid : String → Bool)
    (http : String → RawOutcome) (subtitle : BierDopjeSubtitle) :
    BierDopjeSubtitle × Except Err Unit :=
  match http subtitle.download_link with
  | .timeout => (subtitle, .error (.providerNotAvailable "Timeout after 10 seconds"))
  | .response status content =>
    if status == 429 then
      (subtitle, .error (.providerNotAvailable "Too Many Requests"))
    else if status != 200 then
      (subtitle, .error (.providerError ("Request failed with status code " ++ toString status)))
    else
      match pyDecode (detect content) .replace content with
      | .error e => (subtitle, .error e)
      | .ok subtitle_text =>
        if !isValid subtitle_text then
          (subtitle, .error .invalidSubtitle)
        else
          ({ subtitle with content := some subtitle_text }, .ok ())

/-- Follows the spec's words for the Show Identity Resolver's
selection policy (claim C1), to be compared with `find_show_id`: given
the response's result list, prefer (year given) the first exact
lowercased match of `'<series> (<year>)'`, then the first exact
lowercased match of the bare series, then the first result. -/
def resolvePrioritySpec (series : String) (year : Option Nat)
    (results : List ShowResult) : Option Int :=
  let yearPick : Option ShowResult :=
    match year with
    | some y =>
      results.find? (fun r => pyLower r.showname == series ++ " (" ++ toString y ++ ")")
    | none => none
  match yearPick with
  | some r => some r.showid
  | none =>
    match results.find? (fun r => pyLower r.showname == series) with
    | some r => some r.showid
    | none => (results.head?).map (fun r => r.showid)

/-- Mock service from the spec's test sentence: `FindShowByName`
answers with `[{"lost (2004)", id=1}, {"lost", id=2}]` (display names
given here in original case; the code lowercases them). -/
def svcLost : Service :=
  { findShow := fun _ => .response 200 ⟨none, "true", [⟨"Lost (2004)", 1⟩, ⟨"Lost", 2⟩]⟩,
    getAllSubs := fun _ _ _ _ _ => .response 200 ⟨none, "true", [⟨"f1", "l1"⟩, ⟨"f2", "l2"⟩]⟩ }

/-- Concrete subtitle used to instantiate hypotheses on `svcLost`. -/
def subW1 : BierDopjeSubtitle :=
  ⟨.eng, some 1, some 2, some 7, none, none, "f1", "l1", none⟩

/-- Second concrete subtitle returned by `svcLost`. -/
def subW2 : BierDopjeSubtitle :=
  ⟨.eng, some 1, some 2, some 7, none, none, "f2", "l2", none⟩

/-- Helper: a `get` on a 200 response with no embedded error node
returns the parsed document. -/
theorem get_ok_of {α : Type} (doc : Doc α) (h : doc.error_msg = none) :
    get (HttpOutcome.response 200 doc) = .ok doc := by
  simp [get, h]

/-- Helper: successful `getAllSubsStep` results are stamped from the
request and read only filename/downloadlink from response entries. -/
theorem getAllSubsStep_mem (svc : Service) (language : Language)
    (season episode : Option Nat) (tvdb_id : Option Int) (series : Option String)
    (year : Option Nat) (sid : Int) (istv : Bool) (trace : List Request)
    (subs : List BierDopjeSubtitle)
    (hok : (getAllSubsStep svc language season episode tvdb_id series year sid istv trace).1
      = .ok subs)
    (s : BierDopjeSubtitle) (hs : s ∈ subs) :
    s.language = language ∧ s.season = season ∧ s.episode = episode ∧
    s.tvdb_id = tvdb_id ∧ s.series = series ∧ s.year = year ∧ s.content = none ∧
    ∃ (doc : Doc SubEntry) (entry : SubEntry),
      svc.getAllSubs sid season episode language.alpha2 istv = .response 200 doc ∧
      entry ∈ doc.results ∧ s.filename = entry.filename ∧
      s.download_link = entry.downloadlink := by
  unfold getAllSubsStep at hok
  cases ho : svc.getAllSubs sid season episode language.alpha2 istv with
  | timeout => rw [ho] at hok; simp [get] at hok
  | response st doc =>
    rw [ho] at hok
    by_cases h429 : st = 429
    · subst h429; simp [get] at hok
    · by_cases h200 : st = 200
      · subst h200
        cases herr : doc.error_msg with
        | some m => simp [get, herr] at hok
        | none =>
          simp [get, herr] at hok
          by_cases hstat : doc.status = "false"
          · simp [hstat] at hok
            subst hok
            simp at hs
          · simp [hstat] at hok
            subst hok
            simp only [List.mem_map] at hs
            obtain ⟨entry, hentry, hse⟩ := hs
            subst hse
            exact ⟨rfl, rfl, rfl, rfl, rfl, rfl, rfl, doc, entry, rfl, hentry, rfl, rfl⟩
      · simp [get, h429, h200] at hok

/-- Claim C4: whenever both `tvdb_id` and `series` are `None`,
whatever the other arguments and the remote service's behaviour,
`query` fails immediately with `ValueError` (a contract violation) and
issues no request at all: the returned trace is empty, so the
Transport `get` is never invoked. -/
theorem query_missing_params (svc : Service) (language : Language)
    (season episode : Option Nat) (year : Option Nat) :
    query svc language season episode none none year =
      (.error (.valueError "Missing parameter tvdb_id or series"), []) := rfl

/-- Claim C5: when `tvdb_id` is present, `query` never invokes the
Show Identity Resolver: its outcome is identical for any two
behaviours of the show-search endpoint (even when `series` is also
supplied), and its request trace is exactly one `GetAllSubsFor`
request with the `tvdb_id` as show id and the is-external-id flag
true — no `FindShowByName` request occurs. -/
theorem query_tvdb_bypasses_resolver (fs1 fs2 : String → HttpOutcome ShowResult)
    (gas : Int → Option Nat → Option Nat → String → Bool → HttpOutcome SubEntry)
    (language : Language) (season episode : Option Nat) (tid : Int)
    (series : Option String) (year : Option Nat) :
    query ⟨fs1, gas⟩ language season episode (some tid) series year =
      query ⟨fs2, gas⟩ language season episode (some tid) series year ∧
    (query ⟨fs1, gas⟩ language season episode (some tid) series year).2 =
      [Request.getAllSubsFor tid season episode language.alpha2 true] :=
  ⟨rfl, rfl⟩

/-- Claim C10: in `compute_matches`, the direct comparisons add
`tvdb_id`, `series`, `season` and `episode` exactly when the video's
corresponding field is truthy (not `None`, not `0`, not empty) AND
equals the candidate's, whereas `year` is added exactly when the two
year fields are equal, with no truthiness guard. -/
theorem directMatches_truthiness_guards (sub : BierDopjeSubtitle) (video : Video) :
    ("tvdb_id" ∈ directMatches sub video ↔
      truthyInt video.tvdb_id = true ∧ sub.tvdb_id = video.tvdb_id) ∧
    ("series" ∈ directMatches sub video ↔
      truthyStr video.series = true ∧ sub.series = video.series) ∧
    ("season" ∈ directMatches sub video ↔
      truthyNat video.season = true ∧ sub.season = video.season) ∧
    ("episode" ∈ directMatches sub video ↔
      truthyNat video.episode = true ∧ sub.episode = video.episode) ∧
    ("year" ∈ directMatches sub video ↔ sub.year = video.year) := by
  unfold directMatches
  split_ifs <;> simp_all

/-- Claim C10 witness: at a video whose season is `0` and whose other
fields are `None`, no direct tag but `year` is added even though the
candidate's fields are all equal to the video's. -/
theorem directMatches_truthiness_guards_witness :
    "season" ∉ directMatches ⟨.eng, some 0, none, none, none, none, "f", "l", none⟩
      ⟨none, some 0, none, none, none⟩ ∧
    "year" ∈ directMatches ⟨.eng, some 0, none, none, none, none, "f", "l", none⟩
      ⟨none, some 0, none, none, none⟩ := by
  have h := directMatches_truthiness_guards
    ⟨.eng, some 0, none, none, none, none, "f", "l", none⟩ ⟨none, some 0, none, none, none⟩
  refine ⟨fun hmem => ?_, h.2.2.2.2.mpr rfl⟩
  have := (h.2.2.1).mp hmem
  simp [truthyNat] at this

/-- Claim C2 counterexample: the claimed equivalence fails in the
only-if direction: the filename-guess union can contribute the `year`
tag even when the candidate's year differs from the video's.  Here
the guess collaborator reports a year match, the candidate's year is
`1` and the video's is `2`, yet `year` is in the result. -/
theorem compute_matches_year_iff_cex :
    "year" ∈ compute_matches (fun _ _ => {"year"})
      ⟨.eng, none, none, none, none, some 1, "f", "l", none⟩
      ⟨none, none, none, none, some 2⟩ ∧
    (⟨.eng, none, none, none, none, some 1, "f", "l", none⟩ : BierDopjeSubtitle).year ≠
      (⟨none, none, none, none, some 2⟩ : Video).year := by
  constructor
  · simp [compute_matches]
  · simp

/-- Claim C2 (amended): the `year` tag is added whenever the
candidate's year equals the video's year, with no presence
precondition (both `None` included) — and the direct-comparison pass
adds `year` exactly on that equality; only the opaque filename-guess
union can add it otherwise. -/
theorem compute_matches_year_unconditional (g : String → Video → Finset String)
    (sub : BierDopjeSubtitle) (video : Video) :
    (sub.year = video.year → "year" ∈ compute_matches g sub video) ∧
    ("year" ∈ directMatches sub video ↔ sub.year = video.year) := by
  have hdir : "year" ∈ directMatches sub video ↔ sub.year = video.year := by
    unfold directMatches
    split_ifs <;> simp_all
  exact ⟨fun h => Finset.mem_union_left _ (hdir.mpr h), hdir⟩

/-- Claim C2 witness: with both years `None` (and a guess collaborator
returning nothing) the `year` tag is present. -/
theorem compute_matches_year_unconditional_witness :
    "year" ∈ compute_matches (fun _ _ => ∅)
      ⟨.eng, none, none, none, none, none, "f", "l", none⟩
      ⟨none, none, none, none, none⟩ :=
  (compute_matches_year_unconditional (fun _ _ => ∅)
    ⟨.eng, none, none, none, none, none, "f", "l", none⟩
    ⟨none, none, none, none, none⟩).1 rfl

/-- Claim C8: when every per-language query succeeds, `list_subtitles`
is their concatenation in language iteration order, response order
preserved within each language (one query per language). -/
theorem list_subtitles_is_concat (svc : Service) (video : Video)
    (languages : List Language) (rs : Language → List BierDopjeSubtitle)
    (h : ∀ l ∈ languages,
      (query svc l video.season video.episode video.tvdb_id video.series video.year).1
        = .ok (rs l)) :
    (list_subtitles svc video languages).1 = .ok (languages.flatMap rs) ∧
    (list_subtitles svc video languages).2 = languages.flatMap
      (fun l => (query svc l video.season video.episode video.tvdb_id
        video.series video.year).2) := by
  induction languages with
  | nil => exact ⟨rfl, rfl⟩
  | cons l ls ih =>
    have hl := h l (List.mem_cons_self l ls)
    obtain ⟨ih1, ih2⟩ := ih (fun l' hl' => h l' (List.mem_cons_of_mem l hl'))
    unfold list_subtitles
    cases hq : query svc l video.season video.episode video.tvdb_id video.series video.year with
    | mk q1 q2 =>
      cases hr : list_subtitles svc video ls with
      | mk r1 r2 =>
        rw [hq] at hl
        rw [hr] at ih1 ih2
        simp only at hl ih1 ih2
        subst hl
        subst ih1
        subst ih2
        exact ⟨by simp [List.flatMap_cons], by simp [List.flatMap_cons, hq]⟩

/-- Claim C1: on every show-search response with at least one result,
`find_show_id` selects by the spec's priority (captured verbatim by
`resolvePrioritySpec`): year-qualified exact lowercased match first
when a year is given, then bare exact lowercased match, then the first
result; the outcome is always some id, never a failure. -/
theorem find_show_id_selection (svc : Service) (series : String) (year : Option Nat)
    (doc : Doc ShowResult)
    (hresp : svc.findShow series = .response 200 doc)
    (herr : doc.error_msg = none)
    (hstatus : doc.status ≠ "false")
    (hne : doc.results ≠ []) :
    (find_show_id svc series year).1 = .ok (resolvePrioritySpec series year doc.results) ∧
    (resolvePrioritySpec series year doc.results).isSome = true := by
  have hfs : (find_show_id svc series year).1 = resolveFromDoc series year doc := by
    unfold find_show_id
    rw [hresp, get_ok_of doc herr]
  constructor
  · rw [hfs]
    unfold resolveFromDoc resolvePrioritySpec
    rw [if_neg (by simp [hstatus])]
    cases year with
    | none =>
      cases hbare : doc.results.find? (fun r => pyLower r.showname == series) with
      | some r => simp [hbare]
      | none =>
        cases hres : doc.results with
        | nil => exact absurd hres hne
        | cons a l =>
          rw [hres] at hbare
          simp [hbare]
    | some y =>
      cases hyear : doc.results.find?
          (fun r => pyLower r.showname == series ++ " (" ++ toString y ++ ")") with
      | some r => simp [hyear]
      | none =>
        cases hbare : doc.results.find? (fun r => pyLower r.showname == series) with
        | some r => simp [hyear, hbare]
        | none =>
          cases hres : doc.results with
          | nil => exact absurd hres hne
          | cons a l =>
            rw [hres] at hyear hbare
            simp [hyear, hbare]
  · unfold resolvePrioritySpec
    cases year with
    | none =>
      cases hbare : doc.results.find? (fun r => pyLower r.showname == series) with
      | some r => simp [hbare]
      | none =>
        cases hres : doc.results with
        | nil => exact absurd hres hne
        | cons a l =>
          rw [hres] at hbare
          simp [hbare]
    | some y =>
      cases hyear : doc.results.find?
          (fun r => pyLower r.showname == series ++ " (" ++ toString y ++ ")") with
      | some r => simp [hyear]
      | none =>
        cases hbare : doc.results.find? (fun r => pyLower r.showname == series) with
        | some r => simp [hyear, hbare]
        | none =>
          cases hres : doc.results with
          | nil => exact absurd hres hne
          | cons a l =>
            rw [hres] at hyear hbare
            simp [hyear, hbare]

/-- Claim C1 witness: the spec's mock data — `find_show_id('lost', 2004)`
picks id 1 (year-qualified match beats the bare match) and
`find_show_id('lost', None)` picks id 2. -/
theorem find_show_id_selection_witness :
    (find_show_id svcLost "lost" (some 2004)).1 = .ok (some 1) ∧
    (find_show_id svcLost "lost" none).1 = .ok (some 2) := by
  have h1 := find_show_id_selection svcLost "lost" (some 2004)
    ⟨none, "true", [⟨"Lost (2004)", 1⟩, ⟨"Lost", 2⟩]⟩ rfl rfl (by decide) (by decide)
  have h2 := find_show_id_selection svcLost "lost" none
    ⟨none, "true", [⟨"Lost (2004)", 1⟩, ⟨"Lost", 2⟩]⟩ rfl rfl (by decide) (by decide)
  exact ⟨h1.1.trans (by decide), h2.1.trans (by decide)⟩

/-- Helper: `get` on a non-200, non-429 status fails with
`ProviderError` carrying the status code. -/
theorem get_bad_status {α : Type} (st : Nat) (doc : Doc α)
    (h200 : st ≠ 200) (h429 : st ≠ 429) :
    get (HttpOutcome.response st doc) =
      .error (.providerError ("Request failed with status code " ++ toString st)) := by
  unfold get
  dsimp only
  rw [if_neg (by simp [h429]), if_pos (by simp [h200])]

/-- Helper: `get` on a 200 response whose document embeds an error
node fails with `ProviderError` carrying the node's text. -/
theorem get_embedded_error {α : Type} (doc : Doc α) (m : String)
    (h : doc.error_msg = some m) :
    get (HttpOutcome.response 200 doc) = .error (.providerError m) := by
  simp [get, h]

/-- Claim C3: `get` raises `ProviderNotAvailable` exactly on timeout
or status 429; it raises `ProviderError` exactly on a status that is
neither 200 nor 429 (carrying the status code) or on a 200 response
embedding an error node (carrying its text); otherwise it returns the
parsed document.  `download_subtitle` classifies timeout, 429 and
other non-200 statuses the same way, and a 429 never surfaces as a
`ProviderError` from it. -/
theorem network_error_classification :
    (∀ (α : Type) (o : HttpOutcome α),
      ((∃ m, get o = .error (.providerNotAvailable m)) ↔
        (o = .timeout ∨ ∃ doc, o = .response 429 doc)) ∧
      ((∃ m, get o = .error (.providerError m)) ↔
        ((∃ st doc, o = .response st doc ∧ st ≠ 200 ∧ st ≠ 429) ∨
          (∃ doc m, o = .response 200 doc ∧ doc.error_msg = some m))) ∧
      (∀ st (doc : Doc α), o = .response st doc → st ≠ 200 → st ≠ 429 →
        get o = .error (.providerError ("Request failed with status code " ++ toString st))) ∧
      (∀ (doc : Doc α) m, o = .response 200 doc → doc.error_msg = some m →
        get o = .error (.providerError m)) ∧
      (∀ (doc : Doc α), o = .response 200 doc → doc.error_msg = none →
        get o = .ok doc)) ∧
    (∀ (detect : List Nat → Encoding) (isValid : String → Bool)
        (http : String → RawOutcome) (sub : BierDopjeSubtitle),
      (http sub.download_link = .timeout →
        (download_subtitle detect isValid http sub).2 =
          .error (.providerNotAvailable "Timeout after 10 seconds")) ∧
      (∀ content, http sub.download_link = .response 429 content →
        (download_subtitle detect isValid http sub).2 =
          .error (.providerNotAvailable "Too Many Requests")) ∧
      (∀ st content, http sub.download_link = .response st content → st ≠ 200 → st ≠ 429 →
        (download_subtitle detect isValid http sub).2 =
          .error (.providerError ("Request failed with status code " ++ toString st))) ∧
      (∀ content m, http sub.download_link = .response 429 content →
        (download_subtitle detect isValid http sub).2 ≠ .error (.providerError m))) := by
  constructor
  · intro α o
    refine ⟨?_, ?_, ?_, ?_, ?_⟩
    · constructor
      · rintro ⟨m, hm⟩
        cases o with
        | timeout => exact Or.inl rfl
        | response st doc =>
          by_cases h429 : st = 429
          · exact Or.inr ⟨doc, by rw [h429]⟩
          · by_cases h200 : st = 200
            · subst h200
              cases herr : doc.error_msg with
              | some m2 => rw [get_embedded_error doc m2 herr] at hm; simp at hm
              | none => rw [get_ok_of doc herr] at hm; simp at hm
            · rw [get_bad_status st doc h200 h429] at hm; simp at hm
      · rintro (rfl | ⟨doc, rfl⟩)
        · exact ⟨"Timeout after 10 seconds", rfl⟩
        · exact ⟨"Too Many Requests", by simp [get]⟩
    · constructor
      · rintro ⟨m, hm⟩
        cases o with
        | timeout => simp [get] at hm
        | response st doc =>
          by_cases h429 : st = 429
          · subst h429; simp [get] at hm
          · by_cases h200 : st = 200
            · subst h200
              cases herr : doc.error_msg with
              | some m2 => exact Or.inr ⟨doc, m2, rfl, herr⟩
              | none => rw [get_ok_of doc herr] at hm; simp at hm
            · exact Or.inl ⟨st, doc, rfl, h200, h429⟩
      · rintro (⟨st, doc, rfl, h200, h429⟩ | ⟨doc, m, rfl, herr⟩)
        · exact ⟨_, get_bad_status st doc h200 h429⟩
        · exact ⟨m, get_embedded_error doc m herr⟩
    · rintro st doc rfl h200 h429
      exact get_bad_status st doc h200 h429
    · rintro doc m rfl herr
      exact get_embedded_error doc m herr
    · rintro doc rfl herr
      exact get_ok_of doc herr
  · intro detect isValid http sub
    refine ⟨?_, ?_, ?_, ?_⟩
    · intro h
      unfold download_subtitle
      rw [h]
    · intro content h
      unfold download_subtitle
      rw [h]
      simp
    · intro st content h h200 h429
      unfold download_subtitle
      rw [h]
      dsimp only
      rw [if_neg (by simp [h429]), if_pos (by simp [h200])]
    · intro content m h
      unfold download_subtitle
      rw [h]
      simp

/-- Claim C3 witness: a timeout on the download and a 429 on an API
call are both classified as `ProviderNotAvailable`, and a 200 response
without an embedded error node is returned parsed. -/
theorem network_error_classification_witness :
    get (HttpOutcome.response 200 (⟨none, "true", []⟩ : Doc SubEntry)) =
      .ok ⟨none, "true", []⟩ ∧
    (∃ m, get (HttpOutcome.response 429 (⟨none, "true", []⟩ : Doc SubEntry)) =
      .error (.providerNotAvailable m)) ∧
    (download_subtitle (fun _ => ⟨fun _ => some 'a'⟩) (fun _ => true)
      (fun _ => .timeout) subW1).2 =
        .error (.providerNotAvailable "Timeout after 10 seconds") := by
  refine ⟨?_, ?_, ?_⟩
  · exact (network_error_classification.1 SubEntry
      (.response 200 ⟨none, "true", []⟩)).2.2.2.2 ⟨none, "true", []⟩ rfl rfl
  · exact (network_error_classification.1 SubEntry
      (.response 429 ⟨none, "true", []⟩)).1.mpr (Or.inr ⟨⟨none, "true", []⟩, rfl⟩)
  · exact (network_error_classification.2 (fun _ => ⟨fun _ => some 'a'⟩) (fun _ => true)
      (fun _ => .timeout) subW1).1 rfl

/-- Claim C6: every candidate returned by `query` carries the
language, season, episode, tvdb_id, series and year of the REQUEST
(and no content yet); only its filename and download link are read
from an entry of the response document. -/
theorem query_stamps_from_request (svc : Service) (language : Language)
    (season episode : Option Nat) (tvdb_id : Option Int) (series : Option String)
    (year : Option Nat) (subs : List BierDopjeSubtitle)
    (hok : (query svc language season episode tvdb_id series year).1 = .ok subs)
    (s : BierDopjeSubtitle) (hs : s ∈ subs) :
    s.language = language ∧ s.season = season ∧ s.episode = episode ∧
    s.tvdb_id = tvdb_id ∧ s.series = series ∧ s.year = year ∧ s.content = none ∧
    ∃ (sid : Int) (istv : Bool) (doc : Doc SubEntry) (entry : SubEntry),
      svc.getAllSubs sid season episode language.alpha2 istv = .response 200 doc ∧
      entry ∈ doc.results ∧ s.filename = entry.filename ∧
      s.download_link = entry.downloadlink := by
  cases tvdb_id with
  | some tid =>
    unfold query at hok
    have h := getAllSubsStep_mem svc language season episode (some tid) series year
      tid true [] subs hok s hs
    exact ⟨h.1, h.2.1, h.2.2.1, h.2.2.2.1, h.2.2.2.2.1, h.2.2.2.2.2.1, h.2.2.2.2.2.2.1,
      tid, true, h.2.2.2.2.2.2.2⟩
  | none =>
    cases series with
    | none => unfold query at hok; simp at hok
    | some ser =>
      unfold query at hok
      dsimp only at hok
      cases hfs : find_show_id svc (pyLower ser) year with
      | mk f1 f2 =>
        rw [hfs] at hok
        cases f1 with
        | error e => simp at hok
        | ok oid =>
          cases oid with
          | none =>
            simp at hok
            subst hok
            simp at hs
          | some sid =>
            have h := getAllSubsStep_mem svc language season episode none (some ser) year
              sid false f2 subs hok s hs
            exact ⟨h.1, h.2.1, h.2.2.1, h.2.2.2.1, h.2.2.2.2.1, h.2.2.2.2.2.1,
              h.2.2.2.2.2.2.1, sid, false, h.2.2.2.2.2.2.2⟩

/-- Claim C6 witness: the first candidate returned by `svcLost` for a
tvdb-id query is stamped with the request's arguments and reads its
filename and link from a response entry. -/
theorem query_stamps_from_request_witness :
    subW1.language = Language.eng ∧ subW1.season = some 1 ∧ subW1.episode = some 2 ∧
    subW1.tvdb_id = some 7 ∧ subW1.series = none ∧ subW1.year = none ∧
    subW1.content = none ∧
    ∃ (sid : Int) (istv : Bool) (doc : Doc SubEntry) (entry : SubEntry),
      svcLost.getAllSubs sid (some 1) (some 2) Language.eng.alpha2 istv =
        .response 200 doc ∧
      entry ∈ doc.results ∧ subW1.filename = entry.filename ∧
      subW1.download_link = entry.downloadlink :=
  query_stamps_from_request svcLost .eng (some 1) (some 2) (some 7) none none
    [subW1, subW2] rfl subW1 (by simp)

/-- Claim C7: when the plausibility validator rejects the decoded
payload, `download_subtitle` raises `InvalidSubtitle` and the
candidate is returned exactly as it came in — in particular its
`content` is still unset, because the assignment only happens after
validation succeeds. -/
theorem download_subtitle_invalid (detect : List Nat → Encoding) (isValid : String → Bool)
    (http : String → RawOutcome) (subtitle : BierDopjeSubtitle) (content : List Nat)
    (hresp : http subtitle.download_link = .response 200 content)
    (hreject : isValid (pyDecodeReplace (detect content) content) = false) :
    download_subtitle detect isValid http subtitle = (subtitle, .error .invalidSubtitle) := by
  unfold download_subtitle
  rw [hresp]
  dsimp only
  rw [if_neg (by simp), if_neg (by simp)]
  unfold pyDecodeReplace at hreject
  simp [pyDecode, hreject]

/-- Claim C7 witness: a validator that rejects everything makes
`download_subtitle` fail with `InvalidSubtitle` and leaves the
candidate untouched. -/
theorem download_subtitle_invalid_witness :
    download_subtitle (fun _ => ⟨fun _ => some 'a'⟩) (fun _ => false)
      (fun _ => .response 200 [65]) subW1 = (subW1, .error .invalidSubtitle) :=
  download_subtitle_invalid (fun _ => ⟨fun _ => some 'a'⟩) (fun _ => false)
    (fun _ => .response 200 [65]) subW1 [65] rfl rfl

/-- Claim C9: decoding with the `'replace'` error handler never fails:
for every proposed encoding and every byte input it yields a string
(substituting unmappable bytes), hence `download_subtitle` can never
surface a decode failure, for any behaviour of the encoding detector. -/
theorem decode_replace_never_fails (enc : Encoding) (bs : List Nat)
    (detect : List Nat → Encoding) (isValid : String → Bool)
    (http : String → RawOutcome) (subtitle : BierDopjeSubtitle) :
    pyDecode enc .replace bs = .ok (pyDecodeReplace enc bs) ∧
    (download_subtitle detect isValid http subtitle).2 ≠ .error .unicodeDecodeError := by
  refine ⟨rfl, ?_⟩
  unfold download_subtitle
  cases http subtitle.download_link with
  | timeout => simp
  | response st content =>
    dsimp only
    by_cases h429 : st = 429
    · simp [h429]
    · by_cases h200 : st = 200
      · subst h200
        rw [if_neg (by simp), if_neg (by simp)]
        simp only [pyDecode]
        by_cases hv : isValid (String.mk (content.map
            (fun b => (((detect content).decodeByte b).getD (Char.ofNat 0xFFFD)))))
        · simp [hv]
        · simp [hv]
      · simp [h429, h200]

/-- Claim C9 witness: an encoding that maps no byte still decodes
`[0, 255]` under `'replace'`, and a download through it cannot end in
a decode failure. -/
theorem decode_replace_never_fails_witness :
    pyDecode ⟨fun _ => none⟩ .replace [0, 255] =
      .ok (pyDecodeReplace ⟨fun _ => none⟩ [0, 255]) ∧
    (download_subtitle (fun _ => ⟨fun _ => none⟩) (fun _ => true)
      (fun _ => .response 200 [0, 255]) subW1).2 ≠ .error .unicodeDecodeError :=
  decode_replace_never_fails ⟨fun _ => none⟩ [0, 255] (fun _ => ⟨fun _ => none⟩)
    (fun _ => true) (fun _ => .response 200 [0, 255]) subW1

/-- Claim C8 witness: on the mock service, `list_subtitles` over
`[eng, nld]` is the per-language query results concatenated in
language order. -/
theorem list_subtitles_is_concat_witness :
    (list_subtitles svcLost ⟨some "Lost", some 1, some 2, some 7, none⟩
      [.eng, .nld]).1 =
    .ok ([Language.eng, Language.nld].flatMap (fun l =>
      [⟨l, some 1, some 2, some 7, some "Lost", none, "f1", "l1", none⟩,
       ⟨l, some 1, some 2, some 7, some "Lost", none, "f2", "l2", none⟩])) :=
  (list_subtitles_is_concat svcLost ⟨some "Lost", some 1, some 2, some 7, none⟩
    [.eng, .nld]
    (fun l => [⟨l, some 1, some 2, some 7, some "Lost", none, "f1", "l1", none⟩,
               ⟨l, some 1, some 2, some 7, some "Lost", none, "f2", "l2", none⟩])
    (by
      intro l hl
      cases hl with
      | head => rfl
      | tail _ hl2 =>
        cases hl2 with
        | head => rfl
        | tail _ hl3 => cases hl3)).1

end BierDopje
